import Mathlib

/-!
Verification of the ImagiTale storytelling application's scene-progression,
generation-client, narration and voice-capture logic.

The development shallowly embeds the TypeScript sources:
* `src/components/Storybook.tsx` — the scene-progression controller, the
  narration player (`speak`) and the voice-capture handlers
  (`onresult` / `onerror` / `onend`);
* `src/unnamed/part_000` — the API-backed generation client
  (`generateScene` and `getStoryScenePrompt`);
* `src/unnamed/part_002` — the SDK generation client
  (`generateFinalStoryScene`, `generateImage`);
* `src/unnamed/part_001` / `src/unnamed/part_005` — the
  markdown-fence-tolerant JSON normalisation helper (`safeJsonParse`).

External effects (the HTTP backend, the model, speech synthesis and
recognition) are modelled as explicit oracle parameters of type `Option _`:
`none` is a failed / thrown call, `some x` a successful result `x`.
JavaScript `undefined`-vs-array truthiness of a scene's `choices` field is
modelled by `Option (List String)`.
-/

set_option maxRecDepth 100000

namespace ImagiTale

-- # Definitions

/-- The UI language, from `types.ts` (`Language.TH = 'th-TH'`,
`Language.EN = 'en-US'`). -/
inductive Language where
  | th
  | en
deriving DecidableEq, Repr

/-- A story scene, from `types.ts` (`interface StoryScene`).  The `choices`
field is `Option`al because `src/unnamed/part_002`'s
`generateFinalStoryScene` returns an object with no `choices` property at
all (JavaScript `undefined`), which the UI distinguishes from an empty
array by truthiness. -/
structure StoryScene where
  text : String
  imageUrl : String
  choices : Option (List String)
deriving DecidableEq, Repr

/-- JavaScript truthiness of the `choices` field: `undefined` is falsy,
any array — including the empty array — is truthy. -/
def choicesTruthy : Option (List String) → Bool
  | none => false
  | some _ => true

/-- JavaScript `String.prototype.trim()`: drop Unicode whitespace from both
ends of the string. -/
def jsTrim (s : String) : String :=
  ⟨((s.data.dropWhile Char.isWhitespace).reverse.dropWhile Char.isWhitespace).reverse⟩

/-- JavaScript template interpolation of a possibly-null string:
`null` prints as `"null"`. -/
def jsInterp : Option String → String
  | none => "null"
  | some s => s

/-- `pat` occurs contiguously in `s`, at the character-list level. -/
def strContains (s pat : String) : Prop :=
  pat.data <:+: s.data

instance strContainsDecidable (s pat : String) : Decidable (strContains s pat) :=
  List.decidableInfix pat.data s.data

namespace Storybook

/-- Embeds JavaScript `Array.prototype.join(' ')` on the narrative texts:
`[].join(' ') = ""`, `[x].join(' ') = x`, and a space between elements. -/
def joinSpace : List String → String
  | [] => ""
  | [x] => x
  | x :: y :: rest => x ++ " " ++ joinSpace (y :: rest)

/-- `Storybook.tsx` line 34:
`const storySoFar = scenes.map(s => s.text).join(' ')`. -/
def storySoFar (scenes : List StoryScene) : String :=
  joinSpace (scenes.map (·.text))

/-- The two pieces of component state relevant to scene progression:
`scenes` (Scene History) and `currentSceneIndex`. -/
structure ControllerState where
  scenes : List StoryScene
  currentSceneIndex : Nat
deriving Repr

/-- The initial component state (`useState<StoryScene[]>([])`,
`useState(0)`). -/
def initControllerState : ControllerState :=
  { scenes := [], currentSceneIndex := 0 }

/-- `Storybook.tsx` lines 160–161: a completed generation appends the new
scene (`setScenes(prev => [...prev, newScene])`) and, only when the history
was non-empty before the call (`if (scenes.length > 0)`), increments the
index (`setCurrentSceneIndex(prev => prev + 1)`). -/
def appendScene (st : ControllerState) (newScene : StoryScene) : ControllerState :=
  { scenes := st.scenes ++ [newScene],
    currentSceneIndex :=
      if st.scenes.length > 0 then st.currentSceneIndex + 1 else st.currentSceneIndex }

/-- Runs a sequence of completed generations from a starting state. -/
def runAppends (st : ControllerState) (newScenes : List StoryScene) : ControllerState :=
  newScenes.foldl appendScene st

/-- The position tag of a scene-generation request, §4.1 of the spec. -/
inductive ScenePosition where
  | initial
  | next
  | final
deriving DecidableEq, Repr

/-- `Storybook.tsx` lines 152–158: the generation dispatch picks the
request position from the current history length —
`scenes.length === 0` ⇒ initial, `scenes.length < 4` ⇒ next,
else ⇒ final (a five-scene session). -/
def scenePositionFor (scenesLength : Nat) : ScenePosition :=
  if scenesLength = 0 then ScenePosition.initial
  else if scenesLength < 4 then ScenePosition.next
  else ScenePosition.final

/-- `Storybook.tsx` line 170 with lines 401/416: the choice buttons and the
microphone control render only when `currentScene?.choices` is truthy. -/
def choiceControlsRendered (st : ControllerState) : Bool :=
  match st.scenes[st.currentSceneIndex]? with
  | some sc => choicesTruthy sc.choices
  | none => false

/-- `Storybook.tsx` lines 429–433: the completion button renders when
`scenes.length >= 5 && !currentScene?.choices`. -/
def completionButtonRendered (st : ControllerState) : Bool :=
  decide (st.scenes.length ≥ 5) && !(choiceControlsRendered st)

-- ## Voice Capture Debouncer (`startListening`, lines 288–333)

/-- The voice-capture state of one listening session: the displayed
`transcript`, the `isListening` flag, the `isProcessing` idempotency guard
(`isProcessing.current`), and the list of transcripts forwarded to
`processSpeech` (each forwarding schedules exactly one `generateScene`
call, so `forwarded.length` is the generation-call count of the session). -/
structure VoiceState where
  transcript : String
  isListening : Bool
  isProcessing : Bool
  forwarded : List String
deriving DecidableEq, Repr

/-- The recognizer events a session can deliver: a result batch (with the
concatenated final and interim segment texts), an error, or the end of
recognition. -/
inductive VoiceEvent where
  | result (finalText interimText : String)
  | error
  | ended
deriving DecidableEq, Repr

/-- `startListening` lines 295–297: the session starts with the processing
guard cleared, an empty transcript, and the listening flag set. -/
def startListeningState : VoiceState :=
  { transcript := "", isListening := true, isProcessing := false, forwarded := [] }

/-- `recognition.onresult` (lines 303–316): display `final || interim`;
on a non-empty final text with the guard clear, set the guard and forward
the final text (via `processSpeechRef.current(final)`, whose own
`if (!finalTranscript) return` guard a non-empty final text passes). -/
def onResult (s : VoiceState) (finalText interimText : String) : VoiceState :=
  let s1 := { s with transcript := if finalText = "" then interimText else finalText }
  if finalText ≠ "" ∧ s1.isProcessing = false then
    { s1 with isProcessing := true, forwarded := s1.forwarded ++ [finalText] }
  else s1

/-- `recognition.onerror` (lines 318–321): clear the listening flag only;
nothing is forwarded. -/
def onError (s : VoiceState) : VoiceState :=
  { s with isListening := false }

/-- `recognition.onend` (lines 323–332): clear the listening flag; if the
guard is still clear, set it and forward the current transcript when it is
non-empty (`if (prev) processSpeechRef.current(prev)`). -/
def onEnded (s : VoiceState) : VoiceState :=
  let s1 := { s with isListening := false }
  if s1.isProcessing then s1
  else
    { s1 with
      isProcessing := true
      forwarded :=
        if s1.transcript = "" then s1.forwarded else s1.forwarded ++ [s1.transcript] }

/-- One recognizer event applied to the session state. -/
def voiceStep (s : VoiceState) : VoiceEvent → VoiceState
  | VoiceEvent.result f i => onResult s f i
  | VoiceEvent.error => onError s
  | VoiceEvent.ended => onEnded s

/-- A whole event sequence applied to the session state. -/
def runVoice (events : List VoiceEvent) (s : VoiceState) : VoiceState :=
  events.foldl voiceStep s

-- ## Narration Player (`speak`, lines 71–142)

/-- A platform speech-synthesis voice (`SpeechSynthesisVoice`): its name,
its BCP-47 language tag and whether it is an on-device voice. -/
structure SynthVoice where
  name : String
  lang : String
  localService : Bool
deriving DecidableEq, Repr

/-- Whether `pat` occurs contiguously in `l`
(JavaScript `String.prototype.includes`). -/
def dataIncludes : List Char → List Char → Bool
  | pat, [] => pat.isEmpty
  | pat, c :: rest => if pat.isPrefixOf (c :: rest) then true else dataIncludes pat rest

/-- JavaScript `s.includes(pat)`. -/
def strIncludes (s pat : String) : Bool :=
  dataIncludes pat.data s.data

/-- JavaScript `s.startsWith(pre)`. -/
def strStartsWith (s pre : String) : Bool :=
  pre.data.isPrefixOf s.data

/-- `speak` lines 84–86: the curated voice-name keyword lists, per
language. -/
def preferredVoiceKeywords : Language → List String
  | Language.th => ["kanya", "narisa", "google"]
  | Language.en => ["google", "samantha", "victoria", "daniel", "zira", "david"]

/-- `speak` lines 88–94 (`getVoiceScore`): +2 when the lowercased voice
name holds a preferred keyword, +1 for an on-device voice. -/
def getVoiceScore (language : Language) (voice : SynthVoice) : Nat :=
  (if (preferredVoiceKeywords language).any
      (fun keyword => strIncludes voice.name.toLower keyword) then 2 else 0)
  + (if voice.localService then 1 else 0)

/-- The language-tag stem used by the filter `v.lang.startsWith(lang.split('-')[0])`
(`'th-TH'.split('-')[0] = "th"`, `'en-US'.split('-')[0] = "en"`). -/
def langCodeStem : Language → String
  | Language.th => "th"
  | Language.en => "en"

/-- `speak` lines 80–98: filter the voices by language stem, then take the
head of the stable descending sort by score — that is, the first voice
attaining the maximal score. -/
def bestVoice (voices : List SynthVoice) (language : Language) : Option SynthVoice :=
  let available := voices.filter (fun v => strStartsWith v.lang (langCodeStem language))
  available.foldl
    (fun best v =>
      match best with
      | none => some v
      | some b =>
        if getVoiceScore language v > getVoiceScore language b then some v else best)
    none

/-- The utterance submitted to `window.speechSynthesis.speak` (the fixed
rate `0.9` and pitch `1.1` floats are not modelled). -/
structure Utterance where
  text : String
  lang : Language
  voiceName : Option String
deriving DecidableEq, Repr

/-- `speak` lines 71–142: when speech synthesis is unavailable or the text
trims to the empty string, the promise resolves immediately
(`return resolve()`) and no utterance is submitted (`none`); otherwise one
utterance with the best-scoring voice is submitted. -/
def speak (synthAvailable : Bool) (voices : List SynthVoice) (text : String)
    (language : Language) : Option Utterance :=
  if !synthAvailable || jsTrim text = "" then none
  else
    some { text := text, lang := language,
           voiceName := (bestVoice voices language).map (fun v => v.name) }

end Storybook

-- ## Generation Client, API-backed version (`src/unnamed/part_000`)

namespace GeminiServiceApi

/-- `part_000` lines 93–98: the deterministic fallback scene substituted
for any failed or invalid `generateFullStoryScene` call.  Note its choice
list holds exactly one entry, `"Start over"`, whatever the position of the
request whose failure produced it. -/
def fallbackScene : StoryScene :=
  { text := "Oh no! The storyteller got a little lost. Let\x27s try again.",
    imageUrl := "https://loremflickr.com/1280/720/error,sad,robot",
    choices := some ["Start over"] }

/-- `part_000` lines 88–99 (`generateScene`): the backend call
(`callApi`) either yields a scene or throws (network error, non-2xx
response, malformed JSON body); `apiResult = none` models every thrown
path.  The `try`/`catch` turns each of them into `fallbackScene`, and a
successful result is passed through unvalidated. -/
def generateScene (apiResult : Option StoryScene) : StoryScene :=
  match apiResult with
  | some scene => scene
  | none => fallbackScene

/-- `part_000` lines 63–65: the per-language instruction sentence. -/
def langInstructions : Language → String
  | Language.th =>
    "The story must be in Thai. The choices must be in Thai. Respond ONLY with the JSON object."
  | Language.en =>
    "The story must be in English. The choices must be in English. Respond ONLY with the JSON object."

/-- JavaScript `Array.prototype.join(', ')` for the vocabulary list. -/
def joinComma : List String → String
  | [] => ""
  | [x] => x
  | x :: y :: rest => x ++ ", " ++ joinComma (y :: rest)

/-- `part_000` lines 67–74: the shared base of every scene prompt. -/
def basePrompt (language : Language) (storyTone : String) (words : List String) : String :=
  "\nYou are a creative storyteller for children aged 3-6. Your task is to generate a scene for a short, interactive story.\nThe story should be very simple, positive, and easy for a young child to understand.\nThe overall tone of the story should be: "
  ++ storyTone
  ++ ".\nThe story must incorporate some of these vocabulary words: "
  ++ joinComma words
  ++ ".\nYour response must be a single JSON object with the specified schema. Do not include any other text or markdown formatting.\n"
  ++ langInstructions language
  ++ "\n"

/-- `part_000` lines 55–86 (`getStoryScenePrompt`): a pure function from
(language, tone, vocabulary, story-so-far, prior choice, position) to the
generation request text.  `storySoFar` and `userChoice` are nullable in
the source (`string | null`); interpolation of `null` is modelled by
`jsInterp`. -/
def getStoryScenePrompt (language : Language) (storyTone : String) (words : List String)
    (storySoFar userChoice : Option String)
    (sceneType : Storybook.ScenePosition) : String :=
  match sceneType with
  | Storybook.ScenePosition.initial =>
    basePrompt language storyTone words
    ++ "This is the very first scene. Introduce a character and a setting. Create a gentle, inviting start to the story. Provide 2 simple, distinct choices for the child."
  | Storybook.ScenePosition.final =>
    basePrompt language storyTone words
    ++ "This is the FINAL scene. Write a concluding paragraph that provides a happy and satisfying resolution. Do not introduce new problems. The story should feel complete. Do NOT provide any choices. The \"choices\" array in the JSON should be empty. Story so far: \"\"\""
    ++ jsInterp storySoFar
    ++ "\"\"\""
  | Storybook.ScenePosition.next =>
    basePrompt language storyTone words
    ++ "Continue the story from where it left off. Provide 2 simple, distinct choices. Story so far: \"\"\""
    ++ jsInterp storySoFar
    ++ "\"\"\". The child chose: \""
    ++ jsInterp userChoice
    ++ "\". Now, write the next scene based on their choice."

end GeminiServiceApi

-- ## Generation Client, SDK version (`src/unnamed/part_002`)

namespace GeminiServiceV2

/-- `part_002` lines 82–111 (`generateImage`): with image generation
disabled the fallback URL is returned immediately; otherwise a successful
call (`imageBytes = some bytes`) yields a base64 data URL and any failure
yields the fallback URL. -/
def generateImage (isImageGenerationEnabled : Bool) (imageBytes : Option String) : String :=
  if !isImageGenerationEnabled then
    "https://loremflickr.com/1280/720/storybook,magic,adventure?lock=story"
  else
    match imageBytes with
    | some bytes => "data:image/jpeg;base64," ++ bytes
    | none => "https://loremflickr.com/1280/720/storybook,magic,adventure?lock=story"

/-- `part_002` lines 249–258: the fallback scene of the final-scene
generator.  It carries no `choices` property at all. -/
def finalFallbackScene (language : Language) : StoryScene :=
  { text :=
      match language with
      | Language.th =>
        "และแล้วทุกคนก็ได้อยู่ด้วยกันอย่างมีความสุข หลังจากได้เรียนรู้บทเรียนล้ำค่าเกี่ยวกับมิตรภาพ"
      | Language.en =>
        "And they all lived happily ever after, having learned a valuable lesson about friendship.",
    imageUrl := "https://loremflickr.com/1280/720/happy,ending,friends?lock=scene_final",
    choices := none }

/-- `part_002` lines 224–259 (`generateFinalStoryScene`):
`responseText = some raw` models a completed `generateContent` call whose
`response.text ?? ''` is `raw` (so an undefined text is `some ""`), and
`none` models a thrown call.  The trimmed text, if empty, throws into the
fallback; otherwise the scene is returned with no `choices` property.
The prompt construction is elided — it only feeds the oracle. -/
def generateFinalStoryScene (responseText imageBytes : Option String)
    (language : Language) (isImageGenerationEnabled : Bool) : StoryScene :=
  match responseText with
  | some raw =>
    let storyText := jsTrim raw
    if storyText = "" then finalFallbackScene language
    else
      { text := storyText,
        imageUrl := generateImage isImageGenerationEnabled imageBytes,
        choices := none }
  | none => finalFallbackScene language

end GeminiServiceV2

-- ## JSON normalisation (`src/unnamed/part_001` lines 11–20,
-- ## `src/unnamed/part_005` lines 5–13, `safeJsonParse`)

namespace SafeJson

/-- The first regex alternative `^```json\s*`: when the text starts with
the seven characters `"```json"`, remove them and the greedy whitespace run
after them. -/
def stripLeadingFence (l : List Char) : List Char :=
  if l.take 7 = ("```json".data) then (l.drop 7).dropWhile Char.isWhitespace else l

/-- The second regex alternative `` ```\s*$ ``: when the text ends with
three backticks followed only by whitespace, remove that suffix. -/
def stripTrailingFence (l : List Char) : List Char :=
  if (l.reverse.dropWhile Char.isWhitespace).take 3 = ("```".data) then
    ((l.reverse.dropWhile Char.isWhitespace).drop 3).reverse
  else l

/-- `String.prototype.trim()` on the character list. -/
def trimData (l : List Char) : List Char :=
  ((l.dropWhile Char.isWhitespace).reverse.dropWhile Char.isWhitespace).reverse

/-- The fence-stripping `replace(/^```json\s*|```\s*$/g, '')` followed by
`.trim()`, on the character list.  The two regex alternatives match
disjoint, non-overlapping spans (one anchored at the start, one at the
end), so sequential removal agrees with the global regex replace. -/
def cleanData (l : List Char) : List Char :=
  trimData (stripTrailingFence (stripLeadingFence l))

/-- The cleaned string handed to `JSON.parse`. -/
def cleanJsonString (s : String) : String :=
  ⟨cleanData s.data⟩

/-- `safeJsonParse`: clean the model output, then parse.  The underlying
`JSON.parse`-plus-cast is abstracted as the oracle `parse`; a `JSON.parse`
throw (returning `null` in the source) is `parse _ = none`. -/
def safeJsonParse {T : Type} (parse : String → Option T) (jsonString : String) : Option T :=
  parse (cleanJsonString jsonString)

end SafeJson

/-- A concrete parse oracle used by the C9 witness: accepts exactly the
JSON text `"[1, 2]"`. -/
def sampleParse : String → Option Nat :=
  fun str => if str = "[1, 2]" then some 42 else none

end ImagiTale

-- # Theorems

namespace ImagiTale

-- ## Lemmas about `joinSpace` and the controller state

theorem joinSpace_snoc (l : List String) (a : String) :
    Storybook.joinSpace (l ++ [a]) =
      if l.isEmpty then a else Storybook.joinSpace l ++ " " ++ a := by
  induction l with
  | nil => simp [Storybook.joinSpace]
  | cons x xs ih =>
    cases xs with
    | nil => simp [Storybook.joinSpace]
    | cons y ys =>
      have hstep : Storybook.joinSpace ((x :: y :: ys) ++ [a]) =
          x ++ " " ++ Storybook.joinSpace ((y :: ys) ++ [a]) := rfl
      rw [hstep, ih]
      simp [Storybook.joinSpace, String.append_assoc]

theorem appendScene_invariant (st : ImagiTale.Storybook.ControllerState) (x : StoryScene)
    (h : st.currentSceneIndex + 1 = st.scenes.length) :
    (Storybook.appendScene st x).currentSceneIndex + 1 =
      (Storybook.appendScene st x).scenes.length := by
  unfold Storybook.appendScene
  simp only [List.length_append, List.length_cons, List.length_nil]
  have hpos : st.scenes.length > 0 := by omega
  simp [hpos]
  omega

theorem runAppends_invariant (rest : List StoryScene)
    (st : ImagiTale.Storybook.ControllerState)
    (h : st.currentSceneIndex + 1 = st.scenes.length) :
    (Storybook.runAppends st rest).currentSceneIndex + 1 =
      (Storybook.runAppends st rest).scenes.length := by
  induction rest generalizing st with
  | nil => exact h
  | cons x xs ih =>
    have hstep : Storybook.runAppends st (x :: xs) =
        Storybook.runAppends (Storybook.appendScene st x) xs := rfl
    rw [hstep]
    exact ih _ (appendScene_invariant st x h)

/-- C5 — appending a scene extends the story-so-far text by exactly the new
scene's narrative (joined with the single-space separator used by
`scenes.map(s => s.text).join(' ')`); the history itself is extended by
pure append, so no existing scene is removed, reordered or modified. -/
theorem storySoFar_append (scenes : List StoryScene) (sc : StoryScene) :
    Storybook.storySoFar (scenes ++ [sc]) =
      (if scenes.isEmpty then sc.text
       else Storybook.storySoFar scenes ++ " " ++ sc.text) ∧
    (Storybook.appendScene { scenes := scenes, currentSceneIndex := 0 } sc).scenes =
      scenes ++ [sc] := by
  constructor
  · unfold Storybook.storySoFar
    rw [List.map_append]
    simp only [List.map]
    rw [joinSpace_snoc]
    cases scenes <;> simp
  · rfl

/-- C10 — after every completed append the current scene index equals the
history length minus one: the initial append leaves the index at `0`
(`setCurrentSceneIndex` is skipped when the history was empty), every later
append increments it by one, and the displayed scene
`scenes[currentSceneIndex]` is always the most recently appended scene. -/
theorem currentSceneIndex_tracks_history (s : StoryScene) (rest : List StoryScene) :
    (Storybook.runAppends Storybook.initControllerState [s]).currentSceneIndex = 0
    ∧ (Storybook.runAppends Storybook.initControllerState (s :: rest)).currentSceneIndex + 1 =
        (Storybook.runAppends Storybook.initControllerState (s :: rest)).scenes.length
    ∧ (Storybook.runAppends Storybook.initControllerState
          (s :: rest)).scenes[(Storybook.runAppends Storybook.initControllerState
          (s :: rest)).currentSceneIndex]? =
        (Storybook.runAppends Storybook.initControllerState (s :: rest)).scenes.getLast? := by
  have hfirst : (Storybook.runAppends Storybook.initControllerState [s]) =
      { scenes := [s], currentSceneIndex := 0 } := rfl
  have hinv : (Storybook.runAppends Storybook.initControllerState (s :: rest)).currentSceneIndex
      + 1 = (Storybook.runAppends Storybook.initControllerState (s :: rest)).scenes.length := by
    have hstep : Storybook.runAppends Storybook.initControllerState (s :: rest) =
        Storybook.runAppends { scenes := [s], currentSceneIndex := 0 } rest := rfl
    rw [hstep]
    exact runAppends_invariant rest _ rfl
  refine ⟨by rw [hfirst], hinv, ?_⟩
  rw [List.getLast?_eq_getElem?]
  have hidx : (Storybook.runAppends Storybook.initControllerState (s :: rest)).currentSceneIndex
      = (Storybook.runAppends Storybook.initControllerState (s :: rest)).scenes.length - 1 := by
    omega
  rw [hidx]

-- ## Voice-capture lemmas

theorem voiceStep_processing_frozen (e : ImagiTale.Storybook.VoiceEvent)
    (s : ImagiTale.Storybook.VoiceState) (h : s.isProcessing = true) :
    (Storybook.voiceStep s e).forwarded = s.forwarded ∧
      (Storybook.voiceStep s e).isProcessing = true := by
  cases e with
  | result f i =>
    simp only [Storybook.voiceStep, Storybook.onResult]
    rw [if_neg (by simp [h])]
    exact ⟨rfl, h⟩
  | error => exact ⟨rfl, h⟩
  | ended =>
    simp only [Storybook.voiceStep, Storybook.onEnded]
    rw [if_pos (by simp [h])]
    exact ⟨rfl, h⟩

theorem runVoice_processing_frozen (events : List ImagiTale.Storybook.VoiceEvent)
    (s : ImagiTale.Storybook.VoiceState) (h : s.isProcessing = true) :
    (Storybook.runVoice events s).forwarded = s.forwarded ∧
      (Storybook.runVoice events s).isProcessing = true := by
  induction events generalizing s with
  | nil => exact ⟨rfl, h⟩
  | cons e es ih =>
    have hstep : Storybook.runVoice (e :: es) s =
        Storybook.runVoice es (Storybook.voiceStep s e) := rfl
    rw [hstep]
    obtain ⟨h1, h2⟩ := voiceStep_processing_frozen e s h
    obtain ⟨h3, h4⟩ := ih (Storybook.voiceStep s e) h2
    exact ⟨h3.trans h1, h4⟩

theorem runVoice_from_clear (events : List ImagiTale.Storybook.VoiceEvent)
    (s : ImagiTale.Storybook.VoiceState) (hp : s.isProcessing = false)
    (hf : s.forwarded = []) :
    (Storybook.runVoice events s).forwarded.length ≤ 1 := by
  induction events generalizing s with
  | nil => simp [Storybook.runVoice, hf]
  | cons e es ih =>
    have hstep : Storybook.runVoice (e :: es) s =
        Storybook.runVoice es (Storybook.voiceStep s e) := rfl
    rw [hstep]
    cases e with
    | result f i =>
      by_cases hc : f ≠ "" ∧ ({ s with transcript := if f = "" then i else f }
          : ImagiTale.Storybook.VoiceState).isProcessing = false
      · have hone : (Storybook.voiceStep s (Storybook.VoiceEvent.result f i)).forwarded = [f]
            ∧ (Storybook.voiceStep s (Storybook.VoiceEvent.result f i)).isProcessing = true := by
          simp only [Storybook.voiceStep, Storybook.onResult]
          rw [if_pos hc]
          simp [hf]
        obtain ⟨hfw, hpr⟩ := runVoice_processing_frozen es _ hone.2
        rw [hfw, hone.1]
        simp
      · have hsame : (Storybook.voiceStep s (Storybook.VoiceEvent.result f i)).forwarded = []
            ∧ (Storybook.voiceStep s (Storybook.VoiceEvent.result f i)).isProcessing = false := by
          simp only [Storybook.voiceStep, Storybook.onResult]
          rw [if_neg hc]
          exact ⟨hf, hp⟩
        exact ih _ hsame.2 hsame.1
    | error => exact ih _ hp hf
    | ended =>
      have hone : (Storybook.voiceStep s Storybook.VoiceEvent.ended).forwarded.length ≤ 1
          ∧ (Storybook.voiceStep s Storybook.VoiceEvent.ended).isProcessing = true := by
        simp only [Storybook.voiceStep, Storybook.onEnded]
        rw [if_neg (by simp [hp])]
        by_cases ht : s.transcript = "" <;> simp [ht, hf]
      obtain ⟨hfw, _⟩ := runVoice_processing_frozen es _ hone.2
      rw [hfw]
      exact hone.1

/-- C4 — in any one listening session (any sequence of recognizer events
from the `startListening` reset state), at most one transcript is ever
forwarded to `processSpeech`, so at most one generation call is scheduled:
the first forwarding sets the `isProcessing` guard and every later final
segment or `onend` event is ignored. -/
theorem voice_forward_at_most_once (events : List ImagiTale.Storybook.VoiceEvent) :
    (Storybook.runVoice events Storybook.startListeningState).forwarded.length ≤ 1 :=
  runVoice_from_clear events Storybook.startListeningState rfl rfl

/-- C7 — a session that saw only an interim transcript `t` (one `onresult`
with empty final text) and then the recognizer `end` event forwards `t`
exactly once, unchanged — and nothing at all when no interim transcript
exists; no later event forwards anything more.  An `onerror` event instead
merely clears the listening flag and forwards nothing. -/
theorem voice_end_flushes_interim (t : String)
    (more : List ImagiTale.Storybook.VoiceEvent) :
    (Storybook.voiceStep
        (Storybook.voiceStep Storybook.startListeningState
          (Storybook.VoiceEvent.result "" t)) Storybook.VoiceEvent.ended).forwarded =
      (if t = "" then [] else [t])
    ∧ (Storybook.voiceStep
        (Storybook.voiceStep Storybook.startListeningState
          (Storybook.VoiceEvent.result "" t)) Storybook.VoiceEvent.ended).isListening = false
    ∧ (Storybook.runVoice more
        (Storybook.voiceStep
          (Storybook.voiceStep Storybook.startListeningState
            (Storybook.VoiceEvent.result "" t)) Storybook.VoiceEvent.ended)).forwarded =
      (if t = "" then [] else [t])
    ∧ (Storybook.voiceStep
        (Storybook.voiceStep Storybook.startListeningState
          (Storybook.VoiceEvent.result "" t)) Storybook.VoiceEvent.error).forwarded = []
    ∧ (Storybook.voiceStep
        (Storybook.voiceStep Storybook.startListeningState
          (Storybook.VoiceEvent.result "" t)) Storybook.VoiceEvent.error).isListening
      = false := by
  have hs1 : Storybook.voiceStep Storybook.startListeningState
      (Storybook.VoiceEvent.result "" t) =
      { transcript := t, isListening := true, isProcessing := false, forwarded := [] } := by
    simp [Storybook.voiceStep, Storybook.onResult, Storybook.startListeningState]
  rw [hs1]
  have hend : Storybook.voiceStep
      ({ transcript := t, isListening := true, isProcessing := false, forwarded := [] }
        : ImagiTale.Storybook.VoiceState) Storybook.VoiceEvent.ended =
      { transcript := t, isListening := false, isProcessing := true,
        forwarded := if t = "" then [] else [t] } := by
    simp only [Storybook.voiceStep, Storybook.onEnded]
    rw [if_neg (by simp)]
    by_cases ht : t = "" <;> simp [ht]
  rw [hend]
  refine ⟨rfl, rfl, ?_, rfl, rfl⟩
  exact (runVoice_processing_frozen more _ rfl).1

-- ## Narration Player

/-- C8 — for an empty or whitespace-only narrative the Narration Player's
`speak` resolves immediately without submitting any utterance to the
speech-synthesis engine (even when synthesis is available and voices
exist). -/
theorem speak_blank_resolves_immediately (synthAvailable : Bool)
    (voices : List ImagiTale.Storybook.SynthVoice) (language : Language)
    (text : String) (h : jsTrim text = "") :
    Storybook.speak synthAvailable voices text language = none := by
  unfold Storybook.speak
  rw [if_pos]
  simp [h]

/-- Witness for C8 at the whitespace-only narrative `"   "` with synthesis
available and a voice present. -/
theorem speak_blank_witness :
    Storybook.speak true
      [{ name := "Google UK English Female", lang := "en-GB", localService := true }]
      "   " Language.en = none :=
  speak_blank_resolves_immediately true
    [{ name := "Google UK English Female", lang := "en-GB", localService := true }]
    Language.en "   " (by decide)

-- ## Substring machinery

theorem strContains_end (a pat : String) : strContains (a ++ pat) pat :=
  ⟨a.data, [], by simp⟩

theorem strContains_extendL (a : String) {m pat : String} (h : strContains m pat) :
    strContains (a ++ m) pat := by
  obtain ⟨s, t, hst⟩ := h
  exact ⟨a.data ++ s, t, by rw [String.data_append, ← hst]; simp [List.append_assoc]⟩

theorem strContains_extendR {m pat : String} (b : String) (h : strContains m pat) :
    strContains (m ++ b) pat := by
  obtain ⟨s, t, hst⟩ := h
  exact ⟨s, t ++ b.data, by rw [String.data_append, ← hst]; simp [List.append_assoc]⟩

theorem dataIncludes_iff (pat l : List Char) :
    Storybook.dataIncludes pat l = true ↔ pat <:+: l := by
  induction l with
  | nil =>
    constructor
    · intro h
      have hempty : pat = [] := by
        simpa [Storybook.dataIncludes] using h
      subst hempty
      exact ⟨[], [], rfl⟩
    · intro h
      have hempty : pat = [] := by
        obtain ⟨s, t, hst⟩ := h
        have hlen := congrArg List.length hst
        simp at hlen
        exact hlen.2.1
      subst hempty
      simp [Storybook.dataIncludes]
  | cons c rest ih =>
    by_cases hp : pat.isPrefixOf (c :: rest) = true
    · constructor
      · intro _
        exact List.infix_cons_iff.mpr (Or.inl ( List.isPrefixOf_iff_prefix.mp hp))
      · intro _
        simp [Storybook.dataIncludes, hp]
    · constructor
      · intro h
        have h2 : Storybook.dataIncludes pat rest = true := by
          simpa [Storybook.dataIncludes, hp] using h
        exact List.infix_cons_iff.mpr (Or.inr (ih.mp h2))
      · intro h
        rcases List.infix_cons_iff.mp h with h1 | h2
        · exact absurd ( List.isPrefixOf_iff_prefix.mpr h1) (by simpa using hp)
        · simpa [Storybook.dataIncludes, hp] using ih.mpr h2

theorem strContains_of_checker {s pat : String}
    (h : Storybook.dataIncludes pat.data s.data = true) : strContains s pat :=
  (dataIncludes_iff pat.data s.data).mp h

theorem not_strContains_of_checker {s pat : String}
    (h : Storybook.dataIncludes pat.data s.data = false) : ¬ strContains s pat := by
  intro hc
  have hb := (dataIncludes_iff pat.data s.data).mpr hc
  rw [h] at hb
  exact Bool.noConfusion hb

-- ## Prompt Builder (C6)

/-- C6 — the Prompt Builder's position contract: `initial` ignores both the
story-so-far and the prior choice (any two values give the identical
prompt); `final` contains the empty-choices directive and the story-so-far
text but not the new-choice instruction sentence (checked on a
representative input); `next` contains both the story-so-far text and the
user choice.  Purity is by construction — the builder is a function of its
arguments alone. -/
theorem prompt_builder_position_contract (language : Language) (storyTone : String)
    (words : List String) (s1 c1 s2 c2 c : Option String) (sStory sChoice : String) :
    GeminiServiceApi.getStoryScenePrompt language storyTone words s1 c1
        Storybook.ScenePosition.initial =
      GeminiServiceApi.getStoryScenePrompt language storyTone words s2 c2
        Storybook.ScenePosition.initial
    ∧ strContains
        (GeminiServiceApi.getStoryScenePrompt language storyTone words (some sStory) c
          Storybook.ScenePosition.final)
        "Do NOT provide any choices. The \"choices\" array in the JSON should be empty."
    ∧ strContains
        (GeminiServiceApi.getStoryScenePrompt language storyTone words (some sStory) c
          Storybook.ScenePosition.final) sStory
    ∧ ¬ strContains
        (GeminiServiceApi.getStoryScenePrompt Language.en "adventure" ["cat", "dog"]
          (some "Once upon a time there was a cat.") none
          Storybook.ScenePosition.final)
        "Provide 2 simple, distinct choices"
    ∧ strContains
        (GeminiServiceApi.getStoryScenePrompt language storyTone words (some sStory)
          (some sChoice) Storybook.ScenePosition.next) sStory
    ∧ strContains
        (GeminiServiceApi.getStoryScenePrompt language storyTone words (some sStory)
          (some sChoice) Storybook.ScenePosition.next) sChoice := by
  refine ⟨rfl, ?_, ?_, not_strContains_of_checker (by rfl), ?_, ?_⟩
  · have hd : strContains
        ("This is the FINAL scene. Write a concluding paragraph that provides a happy and satisfying resolution. Do not introduce new problems. The story should feel complete. Do NOT provide any choices. The \"choices\" array in the JSON should be empty. Story so far: \"\"\"" : String)
        "Do NOT provide any choices. The \"choices\" array in the JSON should be empty." :=
      strContains_of_checker (by rfl)
    exact strContains_extendR "\"\"\""
      (strContains_extendR (jsInterp (some sStory))
        (strContains_extendL (GeminiServiceApi.basePrompt language storyTone words) hd))
  · exact strContains_extendR "\"\"\""
      (strContains_end
        (GeminiServiceApi.basePrompt language storyTone words ++
          "This is the FINAL scene. Write a concluding paragraph that provides a happy and satisfying resolution. Do not introduce new problems. The story should feel complete. Do NOT provide any choices. The \"choices\" array in the JSON should be empty. Story so far: \"\"\"")
        sStory)
  · exact strContains_extendR "\". Now, write the next scene based on their choice."
      (strContains_extendR (jsInterp (some sChoice))
        (strContains_extendR "\"\"\". The child chose: \""
          (strContains_end
            (GeminiServiceApi.basePrompt language storyTone words ++
              "Continue the story from where it left off. Provide 2 simple, distinct choices. Story so far: \"\"\"")
            sStory)))
  · exact strContains_extendR "\". Now, write the next scene based on their choice."
      (strContains_end
        (GeminiServiceApi.basePrompt language storyTone words ++
            "Continue the story from where it left off. Provide 2 simple, distinct choices. Story so far: \"\"\"" ++
            jsInterp (some sStory) ++
            "\"\"\". The child chose: \"")
        sChoice)

-- ## Generation Client (C3, C2, C1)

/-- C3 — generation-client failures never escape and never halt the state
machine: every outcome of the backend call (`apiResult`), including every
thrown path (`none`), yields a scene — the deterministic `fallbackScene` —
and the controller appends it to Scene History exactly as it appends a
successful scene. -/
theorem fallback_appended_like_success (apiResult : Option StoryScene)
    (st : ImagiTale.Storybook.ControllerState) :
    (Storybook.appendScene st (GeminiServiceApi.generateScene apiResult)).scenes =
        st.scenes ++ [GeminiServiceApi.generateScene apiResult]
    ∧ GeminiServiceApi.generateScene none = GeminiServiceApi.fallbackScene
    ∧ (Storybook.appendScene st (GeminiServiceApi.generateScene none)).scenes =
        st.scenes ++ [GeminiServiceApi.fallbackScene] :=
  ⟨rfl, rfl, rfl⟩

/-- C2, counterexample — the claim "every scene returned by the Generation
Client (success or fallback) at position `final` has exactly 0 choices" is
false: with four scenes in history the dispatch requests position `final`,
and on failure the client returns the fallback scene, which carries exactly
one choice (`"Start over"`), not zero. -/
theorem choice_cardinality_counterexample :
    Storybook.scenePositionFor 4 = Storybook.ScenePosition.final
    ∧ (GeminiServiceApi.generateScene none).choices = some ["Start over"]
    ∧ ¬ (((GeminiServiceApi.generateScene none).choices.getD []).length = 0) := by
  refine ⟨rfl, rfl, by decide⟩

/-- C2, amended — the final-scene generator of `part_002` always returns a
scene with an empty (absent) choice set, success or fallback; but the
generic Generation Client of `part_000` does not enforce the cardinality
contract: on failure it substitutes a fallback scene with exactly one
choice (`"Start over"`) regardless of the requested position, and on
success it passes the backend's choice list through unvalidated. -/
theorem choice_cardinality_amended (responseText imageBytes : Option String)
    (language : Language) (isImageGenerationEnabled : Bool) (scene : StoryScene) :
    (GeminiServiceV2.generateFinalStoryScene responseText imageBytes language
        isImageGenerationEnabled).choices = none
    ∧ GeminiServiceApi.fallbackScene.choices = some ["Start over"]
    ∧ GeminiServiceApi.generateScene (some scene) = scene := by
  refine ⟨?_, rfl, rfl⟩
  cases responseText with
  | none => rfl
  | some raw =>
    unfold GeminiServiceV2.generateFinalStoryScene
    by_cases h : jsTrim raw = "" <;> simp [h, GeminiServiceV2.finalFallbackScene]

/-- C1 — in a 5-scene session with four scenes already appended, the
generation call triggered by a resolved choice dispatches with position
`final`; the scene it appends (from `part_002`'s final-scene generator,
under any oracle outcome) has an empty choice set, the history reaches
length 5, the completion button renders, and neither the choice buttons nor
the microphone control render — so no further generation call can be
issued. -/
theorem five_scene_session_completes (s1 s2 s3 s4 : StoryScene)
    (responseText imageBytes : Option String) (language : Language)
    (isImageGenerationEnabled : Bool) :
    Storybook.scenePositionFor ([s1, s2, s3, s4] : List StoryScene).length =
        Storybook.ScenePosition.final
    ∧ (GeminiServiceV2.generateFinalStoryScene responseText imageBytes language
        isImageGenerationEnabled).choices = none
    ∧ (Storybook.appendScene { scenes := [s1, s2, s3, s4], currentSceneIndex := 3 }
        (GeminiServiceV2.generateFinalStoryScene responseText imageBytes language
          isImageGenerationEnabled)).scenes.length = 5
    ∧ Storybook.completionButtonRendered
        (Storybook.appendScene { scenes := [s1, s2, s3, s4], currentSceneIndex := 3 }
          (GeminiServiceV2.generateFinalStoryScene responseText imageBytes language
            isImageGenerationEnabled)) = true
    ∧ Storybook.choiceControlsRendered
        (Storybook.appendScene { scenes := [s1, s2, s3, s4], currentSceneIndex := 3 }
          (GeminiServiceV2.generateFinalStoryScene responseText imageBytes language
            isImageGenerationEnabled)) = false := by
  have hch : (GeminiServiceV2.generateFinalStoryScene responseText imageBytes language
      isImageGenerationEnabled).choices = none := by
    cases responseText with
    | none => rfl
    | some raw =>
      unfold GeminiServiceV2.generateFinalStoryScene
      by_cases h : jsTrim raw = "" <;> simp [h, GeminiServiceV2.finalFallbackScene]
  have happ : (Storybook.appendScene { scenes := [s1, s2, s3, s4], currentSceneIndex := 3 }
      (GeminiServiceV2.generateFinalStoryScene responseText imageBytes language
        isImageGenerationEnabled)) =
      { scenes := [s1, s2, s3, s4,
          GeminiServiceV2.generateFinalStoryScene responseText imageBytes language
            isImageGenerationEnabled],
        currentSceneIndex := 4 } := rfl
  have hctrl : Storybook.choiceControlsRendered
      (Storybook.appendScene { scenes := [s1, s2, s3, s4], currentSceneIndex := 3 }
        (GeminiServiceV2.generateFinalStoryScene responseText imageBytes language
          isImageGenerationEnabled)) = false := by
    rw [happ]
    unfold Storybook.choiceControlsRendered
    simp [hch, choicesTruthy]
  refine ⟨rfl, hch, by rw [happ]; rfl, ?_, hctrl⟩
  unfold Storybook.completionButtonRendered
  rw [hctrl, happ]
  rfl

-- ## JSON normalisation (C9)

theorem cleanData_fenced (x : List Char) :
    SafeJson.cleanData (("```json\n".data) ++ x ++ ("\n```".data)) =
      SafeJson.trimData x := by
  have hassoc : ("```json\n".data) ++ x ++ ("\n```".data) =
      ("```json\n".data) ++ (x ++ ("\n```".data)) := by
    simp [List.append_assoc]
  have h7 : ("```json\n".data).take 7 = ("```json".data) := by decide
  have h8 : ("```json\n".data).length = 8 := by decide
  have hdrop7 : ("```json\n".data).drop 7 = ['\n'] := by decide
  have hnl : Char.isWhitespace '\n' = true := by decide
  have htake : (("```json\n".data) ++ (x ++ ("\n```".data))).take 7 = ("```json".data) := by
    rw [List.take_append_eq_append_take, h7, h8]
    simp
  have hdrop : (("```json\n".data) ++ (x ++ ("\n```".data))).drop 7 =
      '\n' :: (x ++ ("\n```".data)) := by
    rw [List.drop_append_eq_append_drop, hdrop7, h8]
    simp
  have hlead : SafeJson.stripLeadingFence (("```json\n".data) ++ x ++ ("\n```".data)) =
      (x ++ ("\n```".data)).dropWhile Char.isWhitespace := by
    unfold SafeJson.stripLeadingFence
    rw [hassoc, if_pos htake, hdrop, List.dropWhile_cons, if_pos hnl]
  unfold SafeJson.cleanData
  rw [hlead, List.dropWhile_append]
  by_cases hd : (x.dropWhile Char.isWhitespace).isEmpty
  · rw [if_pos hd]
    have hx : x.dropWhile Char.isWhitespace = [] := by
      simpa [List.isEmpty_iff] using hd
    have hlhs : SafeJson.trimData (SafeJson.stripTrailingFence
        (("\n```".data).dropWhile Char.isWhitespace)) = [] := by decide
    rw [hlhs]
    unfold SafeJson.trimData
    rw [hx]
    simp
  · rw [if_neg hd]
    have hfcrev : ("\n```".data).reverse.dropWhile Char.isWhitespace =
        ("\n```".data).reverse := by decide
    have hfcempty : (("\n```".data).reverse.dropWhile Char.isWhitespace).isEmpty = false := by
      decide
    have hu : ((x.dropWhile Char.isWhitespace) ++ ("\n```".data)).reverse.dropWhile
        Char.isWhitespace =
        ("\n```".data).reverse ++ (x.dropWhile Char.isWhitespace).reverse := by
      rw [List.reverse_append, List.dropWhile_append, hfcempty]
      simp [hfcrev]
    have hutake : (("\n```".data).reverse ++ (x.dropWhile Char.isWhitespace).reverse).take 3 =
        ("```".data) := by
      rw [List.take_append_eq_append_take]
      have h3 : ("\n```".data).reverse.take 3 = ("```".data) := by decide
      have hlen : ("\n```".data).reverse.length = 4 := by decide
      rw [h3, hlen]
      simp
    have hudrop : (("\n```".data).reverse ++ (x.dropWhile Char.isWhitespace).reverse).drop 3 =
        '\n' :: (x.dropWhile Char.isWhitespace).reverse := by
      rw [List.drop_append_eq_append_drop]
      have h3 : ("\n```".data).reverse.drop 3 = ['\n'] := by decide
      have hlen : ("\n```".data).reverse.length = 4 := by decide
      rw [h3, hlen]
      simp
    have htf : SafeJson.stripTrailingFence
        ((x.dropWhile Char.isWhitespace) ++ ("\n```".data)) =
        (x.dropWhile Char.isWhitespace) ++ ['\n'] := by
      unfold SafeJson.stripTrailingFence
      rw [hu, if_pos hutake, hudrop]
      simp
    rw [htf]
    unfold SafeJson.trimData
    have hidem : (x.dropWhile Char.isWhitespace).dropWhile Char.isWhitespace =
        x.dropWhile Char.isWhitespace :=
      List.dropWhile_idempotent Char.isWhitespace x
    rw [List.dropWhile_append, hidem]
    have hdne : ((x.dropWhile Char.isWhitespace).isEmpty) = false := by
      simpa using hd
    rw [hdne]
    simp only [Bool.false_eq_true, if_false, List.reverse_append, List.reverse_cons,
      List.reverse_nil, List.nil_append, List.singleton_append]
    rw [List.dropWhile_cons, if_pos hnl]

theorem cleanData_plain (x : List Char)
    (h1 : x.take 7 ≠ ("```json".data))
    (h2 : (x.reverse.dropWhile Char.isWhitespace).take 3 ≠ ("```".data)) :
    SafeJson.cleanData x = SafeJson.trimData x := by
  unfold SafeJson.cleanData SafeJson.stripLeadingFence SafeJson.stripTrailingFence
  rw [if_neg h1, if_neg h2]

/-- C9 — the JSON-normalisation helper treats a response wrapped in a
markdown code fence exactly like the bare response: for any text `s` that
does not itself start with a `"```json"` fence and does not end in
backticks (every valid JSON text satisfies both — JSON can neither start
nor end with a backtick), cleaning `"```json\n" ++ s ++ "\n```"` and
cleaning `s` give the same string, so `safeJsonParse` returns the same
parsed value on both and a fenced-but-valid response is a success, not a
fallback. -/
theorem safeJsonParse_accepts_fenced {T : Type} (parse : String → Option T) (s : String)
    (h1 : s.data.take 7 ≠ ("```json".data))
    (h2 : (s.data.reverse.dropWhile Char.isWhitespace).take 3 ≠ ("```".data)) :
    SafeJson.safeJsonParse parse ("```json\n" ++ s ++ "\n```") =
      SafeJson.safeJsonParse parse s := by
  unfold SafeJson.safeJsonParse SafeJson.cleanJsonString
  have hdata : ("```json\n" ++ s ++ "\n```").data =
      ("```json\n".data) ++ s.data ++ ("\n```".data) := by simp
  rw [hdata, cleanData_fenced, cleanData_plain s.data h1 h2]

/-- Witness for C9 at the concrete JSON text `"[1, 2]"`: the fenced and the
bare text parse to the same value, and that value is a success. -/
theorem safeJsonParse_fenced_witness :
    SafeJson.safeJsonParse sampleParse ("```json\n" ++ "[1, 2]" ++ "\n```") =
      SafeJson.safeJsonParse sampleParse "[1, 2]"
    ∧ SafeJson.safeJsonParse sampleParse "[1, 2]" = some 42 :=
  ⟨safeJsonParse_accepts_fenced sampleParse "[1, 2]" (by decide) (by decide), by decide⟩

end ImagiTale
